import Mathlib

/-!
Verification of the Hubspace smart-light control server against its
natural-language specification.

The development shallowly embeds the Python code of `src/main.py`:

* String helpers (`pyUpper`, `pyRemoveHash`, `pyInt?`, `pyFormat02X`) model the
  Python string operations used by the server (ASCII `str.upper`,
  `str.replace("#","")`, `int(s)`, the format `f"{b:02X}"`).  All inputs that
  occur in the server are ASCII, where these agree with Python exactly.
* A vendor `Device` is a record carrying the data the code reads from it
  (`getName`, `getID`) together with the outcome of its fallible vendor calls:
  `attrsResult` is the outcome of `device.getAttributes()` and `write i v` the
  outcome of `device.writeAction(i, v)` (an `Except` error models a raised
  exception).
* `get_device_attributes`, `control_device_thread` and the `/control` handler
  `control_lights` are translated statement by statement; `try/except` becomes
  `Except`, mutation of the `result` record becomes explicit record updates.
* The thread fan-out of `control_lights` appends each per-device result to a
  shared list when the corresponding thread finishes.  The per-device work is
  pure and independent, so the only scheduler-visible nondeterminism is the
  order of those appends: the observable results list is
  `dispatchOutcomes (sched targets)` for an arbitrary scheduler `sched` whose
  output is a permutation of its input.  `sched = id` is the run in which the
  threads happen to finish in initiation order.
* `control_lights` also returns a trace of externally visible events
  (`Ev.reauth` for the `initialize_hubspace` call, i.e. vendor authentication
  plus device listing; `Ev.devWork n` for the per-device vendor traffic of the
  device named `n`; `Ev.validated` / `Ev.resolved` / `Ev.responded` for the
  phase transitions).  An `Except.error` outcome is an `HTTPException` with its
  status code; a normal return is HTTP 200.
-/

namespace Hubspace

/-- ASCII uppercase of one character, as Python `str.upper` acts on ASCII. -/
def upperChar (c : Char) : Char :=
  if 97 ≤ c.toNat ∧ c.toNat ≤ 122 then Char.ofNat (c.toNat - 32) else c

/-- ASCII lowercase of one character, as Python `str.lower` acts on ASCII. -/
def lowerChar (c : Char) : Char :=
  if 65 ≤ c.toNat ∧ c.toNat ≤ 90 then Char.ofNat (c.toNat + 32) else c

/-- Python `s.upper()` on ASCII text. -/
def pyUpper (s : String) : String := ⟨s.data.map upperChar⟩

/-- Python `s.lower()` on ASCII text. -/
def pyLower (s : String) : String := ⟨s.data.map lowerChar⟩

/-- Python `s.replace("#", "")`: every occurrence of `#` is removed
(`src/main.py` line 177). -/
def pyRemoveHash (s : String) : String := ⟨s.data.filter (fun c => c ≠ '#')⟩

/-- Python `s.startswith("#")`. -/
def startsWithHash (s : String) : Bool :=
  match s.data with
  | '#' :: _ => true
  | _ => false

/-- Value of a nonempty all-decimal-digit character list. -/
def decDigitsVal? (cs : List Char) : Option Nat :=
  if cs ≠ [] ∧ cs.all (fun c => c.isDigit) then
    some (cs.foldl (fun a c => a * 10 + (c.toNat - 48)) 0)
  else none

/-- Python `int(s)` on a plain string: an optional sign followed by decimal
digits; a `ValueError` is modelled as `none`. -/
def pyInt? (s : String) : Option Int :=
  match s.data with
  | '-' :: rest => (decDigitsVal? rest).map (fun n => -(n : Int))
  | '+' :: rest => (decDigitsVal? rest).map (fun n => (n : Int))
  | cs => (decDigitsVal? cs).map (fun n => (n : Int))

/-- Uppercase hexadecimal digit. -/
def hexDigitChar (n : Nat) : Char :=
  if n < 10 then Char.ofNat (48 + n) else Char.ofNat (55 + n)

/-- Accumulates the uppercase hexadecimal digits of `n`; the first argument is
fuel, always at least the number of digits. -/
def toHexUpperAux : Nat → Nat → List Char → List Char
  | 0, _, acc => acc
  | fuel + 1, n, acc =>
    if n = 0 then acc else toHexUpperAux fuel (n / 16) (hexDigitChar (n % 16) :: acc)

/-- Minimal-width uppercase hexadecimal rendering of a natural number. -/
def toHexUpper (n : Nat) : String :=
  if n = 0 then "0" else ⟨toHexUpperAux n n []⟩

/-- Python `f"{b:02X}"`: uppercase hexadecimal, left-padded with `0` to width 2
(the sign counts toward the width for negative numbers). -/
def pyFormat02X (b : Int) : String :=
  if b < 0 then "-" ++ toHexUpper b.natAbs
  else
    let s := toHexUpper b.toNat
    if s.length < 2 then "0" ++ s else s

/-- Brightness encoding of the dispatcher: `brightness_hex = f"{brightness:02X}"`
(`src/main.py` line 170). -/
def encodeBrightness (b : Int) : String := pyFormat02X b

/-- Brightness decoding of the attribute reader:
`int(brightness_attr[value])` (`src/main.py` line 128), which parses the
attribute value as a decimal integer; `none` models the `ValueError` path. -/
def decodeBrightness (s : String) : Option Int := pyInt? s

/-- One vendor attribute, a pair of numeric id and encoded value
(the dicts returned by `device.getAttributes()`). -/
structure DeviceAttr where
  id : Nat
  value : String
deriving DecidableEq

/-- A vendor device: its metadata plus the outcomes of its fallible vendor
calls.  `attrsResult` is the outcome of `device.getAttributes()`; `write i v`
is the outcome of `device.writeAction(i, v)`.  An `Except.error` models a
raised exception carrying the exception text. -/
structure Device where
  name : String
  devID : String
  attrsResult : Except String (List DeviceAttr)
  write : Nat → String → Except String Unit

/-- The dict built by `get_device_attributes`: the optional keys
`power`, `brightness`, `color`. -/
structure CurrentAttrs where
  power : Option String
  brightness : Option Int
  color : Option String
deriving DecidableEq

/-- The `DeviceResult` pydantic model (`src/main.py` lines 56-63). -/
structure DeviceResult where
  name : String
  device_id : String
  success : Bool
  message : String
  power_state : Option String
  brightness : Option Int
  color : Option String
deriving DecidableEq

/-- `get_device_attributes` (`src/main.py` lines 114-138).  The whole body is
one `try`: a failing `getAttributes` call, or a `ValueError` from `int(...)`
on the brightness value, makes the function return the empty dict. -/
def get_device_attributes (device : Device) : CurrentAttrs :=
  match device.attrsResult with
  | .error _ => ⟨none, none, none⟩
  | .ok attributes =>
    let power := (attributes.find? (fun a => a.id = 1)).map
      (fun a => if a.value = "1" then "ON" else "OFF")
    match attributes.find? (fun a => a.id = 2) with
    | none =>
      ⟨power, none, (attributes.find? (fun a => a.id = 4)).map (fun a => "#" ++ a.value)⟩
    | some battr =>
      match decodeBrightness battr.value with
      | none => ⟨none, none, none⟩
      | some b =>
        ⟨power, some b, (attributes.find? (fun a => a.id = 4)).map (fun a => "#" ++ a.value)⟩

/-- The `result` record of `control_device_thread` right after the
`get_device_attributes` call filled in the pre-call state
(`src/main.py` lines 144-156). -/
def afterRead (device : Device) : DeviceResult :=
  { name := device.name
  , device_id := device.devID
  , success := false
  , message := ""
  , power_state := (get_device_attributes device).power
  , brightness := (get_device_attributes device).brightness
  , color := (get_device_attributes device).color }

/-- The `if action:` block (`src/main.py` lines 159-165).  On a raised write
exception the error text is returned together with the `result` record as it
stood at that point. -/
def powerStep (device : Device) (action : Option String) (r : DeviceResult) :
    Except (String × DeviceResult) DeviceResult :=
  match action with
  | none => .ok r
  | some a =>
    if a = "" then .ok r
    else if pyUpper a = "ON" then
      match device.write 1 "01" with
      | .ok _ => .ok { r with power_state := some "ON" }
      | .error e => .error (e, r)
    else if pyUpper a = "OFF" then
      match device.write 1 "00" with
      | .ok _ => .ok { r with power_state := some "OFF" }
      | .error e => .error (e, r)
    else .ok r

/-- The `if brightness is not None:` block (`src/main.py` lines 168-172). -/
def brightnessStep (device : Device) (brightness : Option Int) (r : DeviceResult) :
    Except (String × DeviceResult) DeviceResult :=
  match brightness with
  | none => .ok r
  | some b =>
    match device.write 2 (encodeBrightness b) with
    | .ok _ => .ok { r with brightness := some b }
    | .error e => .error (e, r)

/-- The `if color:` block (`src/main.py` lines 175-180).  When the cleaned
color is not exactly 6 characters long, nothing happens. -/
def colorStep (device : Device) (color : Option String) (r : DeviceResult) :
    Except (String × DeviceResult) DeviceResult :=
  match color with
  | none => .ok r
  | some c =>
    if c = "" then .ok r
    else
      let color_clean := pyUpper (pyRemoveHash c)
      if color_clean.length = 6 then
        match device.write 4 color_clean with
        | .ok _ => .ok { r with color := some ("#" ++ color_clean) }
        | .error e => .error (e, r)
      else .ok r

/-- The body of the `try` block of `control_device_thread` after the attribute
read: power write, then brightness write, then color write. -/
def applyChanges (device : Device) (action : Option String) (brightness : Option Int)
    (color : Option String) (r : DeviceResult) :
    Except (String × DeviceResult) DeviceResult :=
  ((powerStep device action r).bind (fun r1 => brightnessStep device brightness r1)).bind
    (fun r2 => colorStep device color r2)

/-- `control_device_thread` (`src/main.py` lines 140-189): the per-device unit
of work run on its own thread. -/
def control_device_thread (device : Device) (action : Option String)
    (brightness : Option Int) (color : Option String) : DeviceResult :=
  match applyChanges device action brightness color (afterRead device) with
  | .ok r =>
    { r with success := true, message := "Successfully controlled " ++ device.name }
  | .error (e, r) =>
    { r with success := false, message := "Error controlling " ++ device.name ++ ": " ++ e }

/-- The per-device results of the fan-out, listed in the given device order
(`src/main.py` lines 288-303).  The list observed by the caller is
`dispatchOutcomes (sched targets)` for a scheduler `sched` that permutes
`targets` into thread completion order. -/
def dispatchOutcomes (targets : List Device) (action : Option String)
    (brightness : Option Int) (color : Option String) : List DeviceResult :=
  targets.map (fun d => control_device_thread d action brightness color)

/-- An HTTP error response, as raised by `HTTPException(status_code, detail)`. -/
structure HTTPException where
  status : Nat
  detail : String
deriving DecidableEq

/-- The `LightControlRequest` pydantic model (`src/main.py` lines 50-54). -/
structure LightControlRequest where
  name : Option String
  action : Option String
  brightness : Option Int
  color : Option String
deriving DecidableEq

/-- The `ControlResponse` pydantic model (`src/main.py` lines 65-69); the
`time.time()` stamp is an abstract integer supplied by the caller. -/
structure ControlResponse where
  success : Bool
  message : String
  results : List DeviceResult
  timestamp : Int
deriving DecidableEq

/-- The `GET /health` response body (`src/main.py` lines 329-334). -/
structure HealthResponse where
  status : String
  hubspace_connected : Bool
  lights_available : Nat
  timestamp : Int
deriving DecidableEq

/-- Externally visible events of one `/control` request.  `reauth` is the
`initialize_hubspace()` call (vendor authentication plus device listing);
`devWork n` is the vendor traffic of the worker for the device named `n`
(its attribute read and writes); the rest mark phase transitions. -/
inductive Ev where
  | reauth
  | validated
  | resolved
  | devWork (name : String)
  | responded
deriving DecidableEq

/-- `verify_token` (`src/main.py` lines 72-76), the `Depends` of `/control`:
it runs before the handler body.  `authz` is the `Authorization` header. -/
def verify_token (secret : String) (authz : Option String) : Except HTTPException Unit :=
  match authz with
  | none => .error ⟨401, "Invalid or missing authorization token"⟩
  | some a =>
    if a = "" ∨ a ≠ "Bearer " ++ secret then
      .error ⟨401, "Invalid or missing authorization token"⟩
    else .ok ()

/-- Python truthiness of an optional string. -/
def truthy : Option String → Bool
  | none => false
  | some s => s != ""

/-- `request.action and request.action.upper() not in ["ON", "OFF"]`
(`src/main.py` line 269). -/
def actionInvalid : Option String → Bool
  | none => false
  | some a => a != "" && pyUpper a != "ON" && pyUpper a != "OFF"

/-- `request.brightness is not None and (request.brightness < 0 or
request.brightness > 100)` (`src/main.py` line 272). -/
def brightnessInvalid : Option Int → Bool
  | none => false
  | some b => decide (b < 0) || decide (100 < b)

/-- `request.color and not request.color.startswith("#")`
(`src/main.py` line 275). -/
def colorInvalid : Option String → Bool
  | none => false
  | some c => c != "" && !(startsWithHash c)

/-- The in-handler request validation of `control_lights`
(`src/main.py` lines 266-276), in source order; `none` means the request is
valid.  The detail strings follow the source with its quote marks dropped. -/
def validationError (req : LightControlRequest) : Option HTTPException :=
  if !(truthy req.action || req.brightness.isSome || truthy req.color) then
    some ⟨400, "At least one control parameter must be specified"⟩
  else if actionInvalid req.action then
    some ⟨400, "Action must be ON or OFF"⟩
  else if brightnessInvalid req.brightness then
    some ⟨400, "Brightness must be between 0 and 100"⟩
  else if colorInvalid req.color then
    some ⟨400, "Color must be in hex format, e.g. #FF0000"⟩
  else none

/-- The name filter of `control_lights` (`src/main.py` lines 279-283):
`none` is the 404 case of an empty case-insensitive match. -/
def resolveTargets (devs : List Device) (name : Option String) : Option (List Device) :=
  match name with
  | none => some devs
  | some n =>
    if n = "" then some devs
    else
      let targets := devs.filter (fun d => pyLower d.name = pyLower n)
      if targets.isEmpty then none else some targets

/-- The response assembly of `control_lights` (`src/main.py` lines 305-316). -/
def buildControlResponse (results : List DeviceResult) (now : Int) : ControlResponse :=
  let success_count := results.countP (fun r => r.success)
  let total_count := results.length
  { success := success_count == total_count
  , message := "Controlled " ++ toString success_count ++ "/" ++ toString total_count
      ++ " devices successfully"
  , results := results
  , timestamp := now }

/-- The `POST /control` endpoint (`src/main.py` lines 249-318).

`secret` is `SECRET_TOKEN`; `authz` the `Authorization` header; `reauth` the
outcome of the `initialize_hubspace()` call (`none` when it returns `False`,
otherwise the refreshed light-device list); `sched` permutes the targeted
devices into thread completion order (the order the result appends happen);
`now` the completion timestamp.  Returns the event trace together with either
an `HTTPException` or the HTTP-200 `ControlResponse`. -/
def control_lights (secret : String) (authz : Option String)
    (reauth : Option (List Device)) (sched : List Device → List Device)
    (req : LightControlRequest) (now : Int) :
    List Ev × Except HTTPException ControlResponse :=
  match verify_token secret authz with
  | .error e => ([], .error e)
  | .ok _ =>
    match reauth with
    | none => ([.reauth], .error ⟨500, "Failed to authenticate with Hubspace"⟩)
    | some light_devices =>
      match validationError req with
      | some e => ([.reauth], .error e)
      | none =>
        match resolveTargets light_devices req.name with
        | none => ([.reauth, .validated], .error ⟨404, "No light found with the requested name"⟩)
        | some targets =>
          let run := sched targets
          let results := dispatchOutcomes run req.action req.brightness req.color
          ([.reauth, .validated, .resolved] ++ run.map (fun d => Ev.devWork d.name)
              ++ [.responded],
            .ok (buildControlResponse results now))

/-- The `GET /health` endpoint (`src/main.py` lines 320-334).  `reauth` is the
outcome of its `initialize_hubspace()` call; on failure the module-level
device list keeps its previous value `prev`. -/
def health_check (reauth : Option (List Device)) (prev : List Device) (now : Int) :
    HealthResponse :=
  match reauth with
  | some devs =>
    { status := "healthy", hubspace_connected := true
    , lights_available := devs.length, timestamp := now }
  | none =>
    { status := "healthy", hubspace_connected := false
    , lights_available := prev.length, timestamp := now }

/-- A healthy device named `A`: attribute read succeeds (empty attribute
list), every write succeeds. -/
def dA : Device := ⟨"A", "ida", .ok [], fun _ _ => .ok ()⟩

/-- A healthy device named `B`. -/
def dB : Device := ⟨"B", "idb", .ok [], fun _ _ => .ok ()⟩

/-- A device whose color write (attribute id 4) raises, and whose other
writes succeed: a successful result proves the color write never ran. -/
def dSkip : Device := ⟨"X", "idx", .ok [],
  fun i _ => if i = 4 then .error "color write attempted" else .ok ()⟩

/-- A device whose attribute read raises. -/
def dReadFail : Device := ⟨"R", "idr", .error "boom", fun _ _ => .ok ()⟩

/-- A device whose every write raises. -/
def dWriteFail : Device := ⟨"W", "idw", .ok [], fun _ _ => .error "net down"⟩

/-- Length after stripping one optional leading `#`, the wording used by the
specification for color normalization (compared against the source, which
removes every `#`). -/
def specStripLeadingHash (s : String) : String :=
  match s.data with
  | '#' :: rest => ⟨rest⟩
  | _ => s

/-- C1: the claim says the dispatch results follow initiation order for every
schedule.  The run in which the two threads finish in the opposite order is a
legal observable (its result list is a permutation of the per-device results)
yet differs from the initiation-order list, because each entry carries its
device name. -/
theorem C1_counterexample :
    (dispatchOutcomes [dB, dA] (some "ON") none none).Perm
      (dispatchOutcomes [dA, dB] (some "ON") none none) ∧
    dispatchOutcomes [dB, dA] (some "ON") none none ≠
      dispatchOutcomes [dA, dB] (some "ON") none none := by
  constructor
  · simp only [dispatchOutcomes, List.map]
    exact List.Perm.swap _ _ _
  · decide

/-- C1 (amended): for every schedule (any permutation of the targets into
completion order) the dispatch returns exactly N results, one per target
device - the observed list is a permutation of the initiation-order per-device
results - but its order follows completion order, not necessarily the order
the targets were supplied. -/
theorem C1_amended (targets : List Device) (a : Option String) (b : Option Int)
    (c : Option String) (sched : List Device → List Device)
    (hs : (sched targets).Perm targets) :
    (dispatchOutcomes (sched targets) a b c).length = targets.length ∧
    (dispatchOutcomes (sched targets) a b c).Perm (dispatchOutcomes targets a b c) := by
  have hperm : (dispatchOutcomes (sched targets) a b c).Perm
      (dispatchOutcomes targets a b c) :=
    hs.map (fun d => control_device_thread d a b c)
  refine ⟨?_, hperm⟩
  have := hperm.length_eq
  simpa [dispatchOutcomes] using this

/-- C1 witness: the amended statement applied to the two-device batch under
the initiation-order schedule. -/
theorem C1_witness :
    (dispatchOutcomes [dA, dB] (some "ON") none none).length =
      ([dA, dB] : List Device).length ∧
    (dispatchOutcomes [dA, dB] (some "ON") none none).Perm
      (dispatchOutcomes [dA, dB] (some "ON") none none) :=
  C1_amended [dA, dB] (some "ON") none none (fun l => l) (List.Perm.refl _)

/-- C2: the claim says decode inverts encode on all of [0,100].  It fails at
16: the dispatcher encodes 16 as the hex string `10`
(`src/main.py` line 170) while the attribute reader parses that string with
`int(...)` in base ten (`src/main.py` line 128), giving 10. -/
theorem C2_counterexample :
    ¬ (∀ b : Nat, b ≤ 100 →
        decodeBrightness (encodeBrightness (b : Int)) = some (b : Int)) := by
  intro h
  exact absurd (h 16 (by decide)) (by decide)

/-- C2 (amended): for brightness b in [0,100] the decode-encode round trip
returns b exactly when b is at most 9, the range where the two-digit uppercase
hex rendering coincides with the decimal rendering; for b in [10,15] the hex
digit A-F makes the decimal parse raise, and for larger b the parse returns
the wrong number. -/
theorem C2_amended (b : Nat) (h : b ≤ 100) :
    decodeBrightness (encodeBrightness (b : Int)) = some (b : Int) ↔ b ≤ 9 := by
  revert h
  revert b
  decide

/-- C2 witness: the amended round-trip equivalence evaluated at brightness 5. -/
theorem C2_witness :
    decodeBrightness (encodeBrightness (5 : Int)) = some (5 : Int) ↔ (5 : Nat) ≤ 9 :=
  C2_amended 5 (by decide)

/-- C3: the claim says a color of stripped length other than 6 makes the
encoding fail with a reported ValidationError.  On the device whose
attribute-4 write would raise, the request with color `#FFF` (stripped length
3) still returns a successful result: no write was attempted and no failure
of any kind was reported. -/
theorem C3_counterexample :
    (specStripLeadingHash "#FFF").length = 3 ∧
    dSkip.write 4 "FFF" = .error "color write attempted" ∧
    (control_device_thread dSkip none none (some "#FFF")).success = true ∧
    (control_device_thread dSkip none none (some "#FFF")).message =
      "Successfully controlled X" := by
  refine ⟨by decide, rfl, by decide, by decide⟩

/-- C3 (amended): a color whose length after removing every `#` character is
not exactly 6 does not fail at all: the color branch of the per-device worker
returns its input unchanged, so the write is silently skipped and no
ValidationError is ever raised (none exists in the code). -/
theorem C3_amended (device : Device) (c : String) (r : DeviceResult)
    (h6 : (pyUpper (pyRemoveHash c)).length ≠ 6) :
    colorStep device (some c) r = .ok r := by
  unfold colorStep
  by_cases hce : c = ""
  · simp [hce]
  · simp [hce, h6]

/-- C3 witness: the amended statement applied to color `#FFF` on the device
whose color write would raise. -/
theorem C3_witness :
    colorStep dSkip (some "#FFF") (afterRead dSkip) = .ok (afterRead dSkip) :=
  C3_amended dSkip "#FFF" (afterRead dSkip) (by decide)

/-- C4: the claim says every exception during the attribute read is recorded
in the result message with success false.  On the device whose attribute read
raises, the worker still reports success with the success message: the read
failure is swallowed inside `get_device_attributes` and never recorded. -/
theorem C4_counterexample :
    dReadFail.attrsResult = .error "boom" ∧
    (control_device_thread dReadFail (some "ON") none none).success = true ∧
    (control_device_thread dReadFail (some "ON") none none).message =
      "Successfully controlled R" := by
  refine ⟨rfl, by decide, by decide⟩

/-- C4 (amended): an exception raised during a device attribute write is
caught at that device boundary and recorded in that device result message
with success false; an exception during the attribute read is caught inside
the read itself, leaving the pre-call fields unset without failing the
device; and no failure propagates across devices: the batch result at each
position is computed from that device alone, so every other device result is
the same as if the failing device were absent. -/
theorem C4_amended (a : Option String) (b : Option Int) (c : Option String) :
    (∀ (device : Device) (e : String) (r : DeviceResult),
        applyChanges device a b c (afterRead device) = .error (e, r) →
        (control_device_thread device a b c).success = false ∧
        (control_device_thread device a b c).message =
          "Error controlling " ++ device.name ++ ": " ++ e) ∧
    (∀ (pre post : List Device) (d : Device),
        dispatchOutcomes (pre ++ d :: post) a b c =
          dispatchOutcomes pre a b c ++
            control_device_thread d a b c :: dispatchOutcomes post a b c) ∧
    (∀ (device : Device) (msg : String),
        device.attrsResult = .error msg →
        get_device_attributes device = ⟨none, none, none⟩) := by
  refine ⟨?_, ?_, ?_⟩
  · intro device e r h
    unfold control_device_thread
    rw [h]
    exact ⟨rfl, rfl⟩
  · intro pre post d
    simp [dispatchOutcomes]
  · intro device msg h
    unfold get_device_attributes
    rw [h]

/-- C4 witness: the amended statement evaluated on the always-failing writer,
on a three-device batch with the read-failing device in the middle, and on
the read-failing device. -/
theorem C4_witness :
    (control_device_thread dWriteFail (some "ON") none none).success = false ∧
    (control_device_thread dWriteFail (some "ON") none none).message =
      "Error controlling " ++ dWriteFail.name ++ ": " ++ "net down" ∧
    dispatchOutcomes ([dA] ++ dReadFail :: [dB]) (some "ON") none none =
      dispatchOutcomes [dA] (some "ON") none none ++
        control_device_thread dReadFail (some "ON") none none ::
          dispatchOutcomes [dB] (some "ON") none none ∧
    get_device_attributes dReadFail = ⟨none, none, none⟩ := by
  obtain ⟨h1, h2, h3⟩ := C4_amended (some "ON") none none
  exact ⟨(h1 dWriteFail "net down" (afterRead dWriteFail) rfl).1,
         (h1 dWriteFail "net down" (afterRead dWriteFail) rfl).2,
         h2 [dA] [dB] dReadFail,
         h3 dReadFail "boom" rfl⟩

/-- Helper: a successful power step never changes the color field. -/
lemma powerStep_ok_color (device : Device) (a : Option String) (r r' : DeviceResult)
    (h : powerStep device a r = .ok r') : r'.color = r.color := by
  unfold powerStep at h
  split at h
  · injection h with h; rw [← h]
  · split at h
    · injection h with h; rw [← h]
    · split at h
      · split at h
        · injection h with h; rw [← h]
        · exact Except.noConfusion h
      · split at h
        · split at h
          · injection h with h; rw [← h]
          · exact Except.noConfusion h
        · injection h with h; rw [← h]

/-- Helper: a successful brightness step never changes the color field. -/
lemma brightnessStep_ok_color (device : Device) (b : Option Int) (r r' : DeviceResult)
    (h : brightnessStep device b r = .ok r') : r'.color = r.color := by
  unfold brightnessStep at h
  split at h
  · injection h with h; rw [← h]
  · split at h
    · injection h with h; rw [← h]
    · exact Except.noConfusion h

/-- C9: for a dispatched device whose requested color has cleaned length
other than 6 (every `#` stripped, as the worker does), while the other
requested sub-changes succeed, the result still reports success with the
success message and its color field keeps the pre-call value: the color write
is silently skipped. -/
theorem C9_claim (device : Device) (a : Option String) (b : Option Int) (c : String)
    (r' : DeviceResult)
    (h6 : (pyUpper (pyRemoveHash c)).length ≠ 6)
    (hok : (powerStep device a (afterRead device)).bind
        (fun r1 => brightnessStep device b r1) = .ok r') :
    (control_device_thread device a b (some c)).success = true ∧
    (control_device_thread device a b (some c)).message =
      "Successfully controlled " ++ device.name ∧
    (control_device_thread device a b (some c)).color =
      (get_device_attributes device).color := by
  have hcs : colorStep device (some c) r' = .ok r' := C3_amended device c r' h6
  have happ : applyChanges device a b (some c) (afterRead device) = .ok r' := by
    unfold applyChanges
    rw [hok]
    simpa [Except.bind] using hcs
  have hres : control_device_thread device a b (some c) =
      { r' with success := true, message := "Successfully controlled " ++ device.name } := by
    unfold control_device_thread
    rw [happ]
  obtain ⟨r1, hp, hb⟩ : ∃ r1, powerStep device a (afterRead device) = .ok r1 ∧
      brightnessStep device b r1 = .ok r' := by
    cases hps : powerStep device a (afterRead device) with
    | error e =>
      rw [hps] at hok
      exact absurd hok (by simp [Except.bind])
    | ok r1 =>
      rw [hps] at hok
      exact ⟨r1, rfl, by simpa [Except.bind] using hok⟩
  have hc1 : r1.color = (afterRead device).color := powerStep_ok_color device a _ r1 hp
  have hc2 : r'.color = r1.color := brightnessStep_ok_color device b r1 r' hb
  rw [hres]
  exact ⟨rfl, rfl, by simp [hc2, hc1, afterRead]⟩

/-- C9 witness: the claim evaluated on the healthy device with color `#FFF`
and no other sub-change requested. -/
theorem C9_witness :
    (control_device_thread dA none none (some "#FFF")).success = true ∧
    (control_device_thread dA none none (some "#FFF")).message =
      "Successfully controlled " ++ dA.name ∧
    (control_device_thread dA none none (some "#FFF")).color =
      (get_device_attributes dA).color :=
  C9_claim dA none none "#FFF" (afterRead dA) (by decide) rfl

/-- Helper: the token check only ever fails with the 401 exception. -/
lemma verify_token_error (secret : String) (authz : Option String) (e : HTTPException)
    (h : verify_token secret authz = .error e) :
    e = ⟨401, "Invalid or missing authorization token"⟩ := by
  unfold verify_token at h
  split at h
  · injection h with h; rw [← h]
  · split at h
    · injection h with h; rw [← h]
    · exact Except.noConfusion h

/-- Helper: every in-handler validation failure carries status 400. -/
lemma validationError_some (req : LightControlRequest) (e : HTTPException)
    (h : validationError req = some e) : e = ⟨400, e.detail⟩ := by
  unfold validationError at h
  split at h
  · injection h with h; rw [← h]
  · split at h
    · injection h with h; rw [← h]
    · split at h
      · injection h with h; rw [← h]
      · split at h
        · injection h with h; rw [← h]
        · exact Option.noConfusion h

/-- C5: whenever `/control` completes its dispatch (the handler returns
normally, i.e. HTTP 200 - which depends only on token, re-authentication,
validation and name resolution, never on per-device outcomes), the response
is the aggregate built from the per-device results; and the aggregate success
flag of such a response is true exactly when every per-device result
succeeded, so a batch with failed devices still answers 200 with
success false. -/
theorem C5_claim (secret : String) (authz : Option String) (devs : List Device)
    (sched : List Device → List Device) (req : LightControlRequest) (now : Int)
    (targets : List Device)
    (hAuth : verify_token secret authz = .ok ())
    (hVal : validationError req = none)
    (hRes : resolveTargets devs req.name = some targets) :
    (control_lights secret authz (some devs) sched req now).2 =
      .ok (buildControlResponse
        (dispatchOutcomes (sched targets) req.action req.brightness req.color) now) ∧
    (∀ (results : List DeviceResult) (t : Int),
        (buildControlResponse results t).success = true ↔
          ∀ r ∈ results, r.success = true) := by
  constructor
  · simp only [control_lights, hAuth, hVal, hRes]
  · intro results t
    simp only [buildControlResponse, beq_iff_eq]
    rw [List.countP_eq_length]

/-- C5 witness: the claim evaluated on an authorized valid request over an
empty device list. -/
theorem C5_witness :
    (control_lights "S" (some "Bearer S") (some []) (fun l => l)
        ⟨none, some "ON", none, none⟩ 0).2 =
      .ok (buildControlResponse (dispatchOutcomes [] (some "ON") none none) 0) ∧
    (∀ (results : List DeviceResult) (t : Int),
        (buildControlResponse results t).success = true ↔
          ∀ r ∈ results, r.success = true) :=
  C5_claim "S" (some "Bearer S") [] (fun l => l) ⟨none, some "ON", none, none⟩ 0 []
    rfl rfl rfl

/-- C6: the claim says a request with invalid parameters exits at validation
before re-authentication is attempted.  It does not: with the empty change
set (invalid parameters) and a failing re-authentication the endpoint answers
500, and with a succeeding re-authentication the 400 exit happens only after
the re-authentication event is already on the trace. -/
theorem C6_counterexample :
    control_lights "SECRET123" (some "Bearer SECRET123") none (fun l => l)
        ⟨none, none, none, none⟩ 0 =
      ([Ev.reauth], .error ⟨500, "Failed to authenticate with Hubspace"⟩) ∧
    control_lights "SECRET123" (some "Bearer SECRET123") (some [dA]) (fun l => l)
        ⟨none, none, none, none⟩ 0 =
      ([Ev.reauth], .error ⟨400, "At least one control parameter must be specified"⟩) :=
  ⟨rfl, rfl⟩

/-- C6 (amended): a `/control` request passes through RECEIVED,
RE-AUTHENTICATED (device refresh), VALIDATED, NAME-RESOLVED, DISPATCHED,
RESPONDED in that order, with early exits 401 before any vendor contact, 500
when re-authentication fails (before validation), 400 at validation (after
re-authentication was attempted), and 404 at name resolution; a request with
invalid parameters exits at validation only after a successful
re-authentication, and yields 500 instead when re-authentication fails. -/
theorem C6_amended (secret : String) (authz : Option String)
    (reauth : Option (List Device)) (sched : List Device → List Device)
    (req : LightControlRequest) (now : Int) :
    (((control_lights secret authz reauth sched req now).1 = [] ∧
        (∃ d, (control_lights secret authz reauth sched req now).2 = .error ⟨401, d⟩)) ∨
      ((control_lights secret authz reauth sched req now).1 = [Ev.reauth] ∧
        (∃ s d, (s = 500 ∨ s = 400) ∧
          (control_lights secret authz reauth sched req now).2 = .error ⟨s, d⟩)) ∨
      ((control_lights secret authz reauth sched req now).1 = [Ev.reauth, Ev.validated] ∧
        (∃ d, (control_lights secret authz reauth sched req now).2 = .error ⟨404, d⟩)) ∨
      (∃ works resp, (control_lights secret authz reauth sched req now).1 =
          [Ev.reauth, Ev.validated, Ev.resolved] ++ works ++ [Ev.responded] ∧
        (control_lights secret authz reauth sched req now).2 = .ok resp)) ∧
    (verify_token secret authz = .ok () → reauth = none →
      control_lights secret authz reauth sched req now =
        ([Ev.reauth], .error ⟨500, "Failed to authenticate with Hubspace"⟩)) ∧
    (∀ devs e, verify_token secret authz = .ok () → reauth = some devs →
      validationError req = some e →
      control_lights secret authz reauth sched req now = ([Ev.reauth], .error e)) := by
  refine ⟨?_, ?_, ?_⟩
  · cases hv : verify_token secret authz with
    | error err =>
      left
      have herr := verify_token_error secret authz err hv
      refine ⟨by simp only [control_lights, hv], err.detail, ?_⟩
      simp only [control_lights, hv]
      rw [herr]
    | ok u =>
      cases u
      cases reauth with
      | none =>
        right; left
        exact ⟨by simp only [control_lights, hv], 500,
          "Failed to authenticate with Hubspace", Or.inl rfl,
          by simp only [control_lights, hv]⟩
      | some devs =>
        cases hval : validationError req with
        | some e =>
          right; left
          have he := validationError_some req e hval
          refine ⟨by simp only [control_lights, hv, hval], 400, e.detail,
            Or.inr rfl, ?_⟩
          simp only [control_lights, hv, hval]
          rw [← he]
        | none =>
          cases hres : resolveTargets devs req.name with
          | none =>
            right; right; left
            exact ⟨by simp only [control_lights, hv, hval, hres],
              "No light found with the requested name",
              by simp only [control_lights, hv, hval, hres]⟩
          | some targets =>
            right; right; right
            exact ⟨(sched targets).map (fun d => Ev.devWork d.name),
              buildControlResponse
                (dispatchOutcomes (sched targets) req.action req.brightness req.color) now,
              by simp only [control_lights, hv, hval, hres],
              by simp only [control_lights, hv, hval, hres]⟩
  · intro hok hre
    subst hre
    simp only [control_lights, hok]
  · intro devs e hok hre hval
    subst hre
    simp only [control_lights, hok, hval]

/-- C6 witness: the amended statement applied to an authorized request with
out-of-range brightness and a successful re-authentication: the 400 exit
happens after the re-authentication event. -/
theorem C6_witness :
    control_lights "T" (some "Bearer T") (some [dB]) (fun l => l)
        ⟨none, none, some 150, none⟩ 0 =
      ([Ev.reauth], .error ⟨400, "Brightness must be between 0 and 100"⟩) :=
  (C6_amended "T" (some "Bearer T") (some [dB]) (fun l => l)
      ⟨none, none, some 150, none⟩ 0).2.2 [dB]
    ⟨400, "Brightness must be between 0 and 100"⟩ rfl rfl rfl

/-- C7: an authorized `/control` request whose body carries brightness 150,
once re-authentication succeeded so that the handler validation runs, is
rejected with HTTP 400, whatever the other parameters are. -/
theorem C7_claim (secret : String) (authz : Option String) (devs : List Device)
    (sched : List Device → List Device) (name action color : Option String) (now : Int)
    (hAuth : verify_token secret authz = .ok ()) :
    ∃ d, control_lights secret authz (some devs) sched
        ⟨name, action, some 150, color⟩ now = ([Ev.reauth], .error ⟨400, d⟩) := by
  have h400 : ∃ d, validationError ⟨name, action, some 150, color⟩ = some ⟨400, d⟩ := by
    by_cases ha : actionInvalid action = true
    · refine ⟨"Action must be ON or OFF", ?_⟩
      simp [validationError, ha]
    · refine ⟨"Brightness must be between 0 and 100", ?_⟩
      have hb : brightnessInvalid (some 150) = true := by decide
      simp [validationError, ha, hb]
  obtain ⟨d, hd⟩ := h400
  exact ⟨d, by simp only [control_lights, hAuth, hd]⟩

/-- C7 witness: the claim evaluated at a concrete authorized request. -/
theorem C7_witness :
    ∃ d, control_lights "K" (some "Bearer K") (some []) (fun l => l)
        ⟨none, none, some 150, none⟩ 0 = ([Ev.reauth], .error ⟨400, d⟩) :=
  C7_claim "K" (some "Bearer K") [] (fun l => l) none none none 0 rfl

/-- C8: a `/control` request whose bearer token is missing or different from
`Bearer` plus the secret is rejected with 401 and produces an empty event
trace: no vendor authentication, device listing, attribute read or attribute
write happens (the `Depends` token check runs before the handler body). -/
theorem C8_claim (secret : String) (authz : Option String)
    (reauth : Option (List Device)) (sched : List Device → List Device)
    (req : LightControlRequest) (now : Int)
    (h : authz ≠ some ("Bearer " ++ secret)) :
    control_lights secret authz reauth sched req now =
      ([], .error ⟨401, "Invalid or missing authorization token"⟩) := by
  have hv : verify_token secret authz =
      .error ⟨401, "Invalid or missing authorization token"⟩ := by
    cases authz with
    | none => rfl
    | some a =>
      simp only [verify_token]
      rw [if_pos (Or.inr (fun hEq => h (by rw [hEq])))]
  simp only [control_lights, hv]

/-- C8 witness: a request with a wrong bearer token is answered 401 with an
empty vendor trace. -/
theorem C8_witness :
    control_lights "SECRET123" (some "Bearer WRONG") none (fun l => l)
        ⟨none, some "ON", none, none⟩ 0 =
      ([], .error ⟨401, "Invalid or missing authorization token"⟩) :=
  C8_claim "SECRET123" (some "Bearer WRONG") none (fun l => l)
    ⟨none, some "ON", none, none⟩ 0 (by decide)

/-- C10: the `/health` response carries status `healthy` regardless of the
re-authentication outcome; only the `hubspace_connected` field reflects
whether re-authentication succeeded. -/
theorem C10_claim (reauth : Option (List Device)) (prev : List Device) (now : Int) :
    (health_check reauth prev now).status = "healthy" ∧
    (health_check reauth prev now).hubspace_connected = reauth.isSome := by
  cases reauth <;> exact ⟨rfl, rfl⟩

end Hubspace

